import Mathlib

/-!
Verification of the HTTP-to-WebSocket AI proxy (Copilot session adapter and
the POST /api/ai request handler).

The embedding below models, directly from the JavaScript source:
- the `Copilot` class: cached conversation identity, fixed model mapping,
  `createConversation`, and `chat` with its WebSocket event loop
  (`appendText`, `citation`, `done`, `error` frames, malformed frames and
  transport errors);
- the POST /api/ai request handler: query validation, prompt construction
  (persona and language instructions), invocation of `chat`, and mapping of
  the outcome to an HTTP response.

External I/O is made explicit: the backend behaviour (conversation-creation
result and the ordered list of wire events received on the WebSocket) is an
input to the functions, and the promise executor becomes a fold over the
event list that stops at the first terminal event, matching the fact that a
settled JavaScript promise ignores later resolve/reject calls.

Real time (Date.now, timestamps) is outside the embedding, so the metadata
record omits executionTime and timestamp; JavaScript string length counts
UTF-16 code units while Lean counts code points, which is irrelevant to the
claims treated here.
-/

/-- JavaScript `String.prototype.trim`: remove leading and trailing
whitespace characters. Embedded over the character list so that it computes
by kernel reduction; the whitespace class is the ASCII one (space, tab,
carriage return, newline), which covers every use in the claims. -/
def jsTrim (s : String) : String :=
  String.mk (((s.data.dropWhile Char.isWhitespace).reverse.dropWhile
    Char.isWhitespace).reverse)

/-- JavaScript `v || dflt` for a possibly-absent string field `v`:
`undefined` and the empty string are falsy, so both select the default. -/
def jsStringOr (v : Option String) (dflt : String) : String :=
  match v with
  | none => dflt
  | some s => if s = "" then dflt else s

/-- One citation record as pushed by the `citation` event case:
`{ title: parsed.title, icon: parsed.iconUrl, url: parsed.url }`. -/
structure Citation where
  title : String
  icon : String
  url : String
deriving Repr, DecidableEq

/-- The accumulated response object `{ text: '', citations: [] }` built by
the WebSocket message handler. -/
structure ChatResult where
  text : String
  citations : List Citation
deriving Repr, DecidableEq

/-- The initial response object at connection time. -/
def initResponse : ChatResult := { text := "", citations := [] }

/-- One parsed frame received on the WebSocket, as dispatched by the
`switch (parsed.event)` in the message handler. `appendText` may lack its
`text` field and `error` may lack its `message` field (both are guarded with
`||` in the source). `other` stands for any unrecognized event tag, which the
switch ignores. `malformed` stands for a chunk on which `JSON.parse` throws. -/
inductive Frame where
  | appendText (text : Option String)
  | citation (title icon url : String)
  | done
  | error (message : Option String)
  | other
  | malformed
deriving Repr, DecidableEq

/-- A frame is terminal when handling it settles the promise:
`done` resolves, `error` rejects, a malformed chunk rejects. -/
def Frame.isTerminal : Frame → Bool
  | Frame.done => true
  | Frame.error _ => true
  | Frame.malformed => true
  | _ => false

/-- One event delivered on the WebSocket connection: either a message frame
or a transport-level error (the `ws.on error` callback). -/
inductive WireEvent where
  | frame (f : Frame)
  | wsError (message : String)
deriving Repr, DecidableEq

/-- A wire event is terminal when it settles the promise. -/
def WireEvent.isTerminal : WireEvent → Bool
  | WireEvent.frame f => f.isTerminal
  | WireEvent.wsError _ => true

/-- The promise executor of `Copilot.chat` as a fold over the ordered list of
wire events: each case mirrors one `case` of the switch in the source.
`none` means the promise is still pending (no terminal event arrived);
`some (Except.ok r)` is resolution, `some (Except.error m)` is rejection
with an `Error` whose message is `m`. Processing stops at the first terminal
event because a settled promise ignores later resolve and reject calls. -/
def processEvents (r : ChatResult) : List WireEvent → Option (Except String ChatResult)
  | [] => none
  | WireEvent.frame f :: rest =>
    match f with
    | Frame.appendText t =>
        processEvents { r with text := r.text ++ jsStringOr t "" } rest
    | Frame.citation title icon url =>
        processEvents
          { r with citations := r.citations ++ [{ title := title, icon := icon, url := url }] } rest
    | Frame.done => some (Except.ok r)
    | Frame.error msg =>
        some (Except.error (jsStringOr msg "An unknown error occurred during the AI chat."))
    | Frame.other => processEvents r rest
    | Frame.malformed => some (Except.error "Failed to process message from AI service.")
  | WireEvent.wsError msg :: _ => some (Except.error ("WebSocket error: " ++ msg))

/-- The `Copilot` instance state: the cached conversation identity
(`this.conversationId`, `null` initially). -/
structure Copilot where
  conversationId : Option String
deriving Repr, DecidableEq

/-- The fixed model mapping `this.models` in constructor order. -/
def Copilot.models : List (String × String) :=
  [("default", "chat"), ("think-deeper", "reasoning"), ("gpt-5", "smart")]

/-- Own-key lookup in `this.models`: `some mode` when the key is one of the
three mapped keys (own keys shadow inherited ones). -/
def modelsLookup (model : String) : Option String :=
  (Copilot.models.find? (fun p => p.1 = model)).map Prod.snd

/-- Truthiness-relevant shape of the property access `this.models[model]`
on the plain object literal: an own key yields its string mode value; a key
of `Object.prototype` reached through the prototype chain yields a truthy
function or object value; any other key yields `undefined`. -/
inductive ModelAccess where
  | own (mode : String)
  | inherited
  | undef
deriving Repr, DecidableEq

/-- Keys visible on a plain object literal through its prototype chain
(`Object.prototype`); each holds a truthy function or object value, so the
`!this.models[model]` guard does not fire on them. -/
def objectPrototypeKeys : List String :=
  ["constructor", "hasOwnProperty", "isPrototypeOf", "propertyIsEnumerable",
   "toLocaleString", "toString", "valueOf", "__proto__", "__defineGetter__",
   "__defineSetter__", "__lookupGetter__", "__lookupSetter__"]

/-- The full property access `this.models[model]`, prototype chain
included: own keys first, then the inherited `Object.prototype` keys, and
`undefined` for everything else. -/
def modelsAccess (model : String) : ModelAccess :=
  match modelsLookup model with
  | some mode => ModelAccess.own mode
  | none =>
      if model ∈ objectPrototypeKeys then ModelAccess.inherited
      else ModelAccess.undef

/-- The message thrown for an unknown model selector:
the valid keys joined in constructor order. -/
def availableModelsMessage : String :=
  "Available models: " ++ String.intercalate ", " (Copilot.models.map Prod.fst)

/-- Outcome of the external conversation-creation call
(`axios.post .../conversations`): success returns the `data.id` field,
failure is a thrown network or status error. -/
inductive CreateResult where
  | ok (id : String)
  | fail
deriving Repr, DecidableEq

/-- `Copilot.createConversation`: on success cache `data.id` and return it;
on failure throw a fixed error and leave the cached identity untouched
(the assignment is inside the `try`, before the `catch`). -/
def Copilot.createConversation (c : Copilot) (r : CreateResult) :
    Copilot × Except String String :=
  match r with
  | CreateResult.ok id => ({ c with conversationId := some id }, Except.ok id)
  | CreateResult.fail =>
      (c, Except.error "Failed to create a new conversation with the AI service.")

/-- The externally observable behaviour of the backend during one `chat`
call: the conversation-creation outcome and the ordered wire events. -/
structure Backend where
  create : CreateResult
  events : List WireEvent
deriving Repr, DecidableEq

/-- Everything observable about one `Copilot.chat` call: the updated
instance state, whether a conversation-creation call was issued, whether the
WebSocket connection was opened, the message text carried by the `send`
frame (if one was sent), and the settlement of the returned promise
(`none` = still pending). -/
structure ChatCall where
  state : Copilot
  createAttempted : Bool
  wsOpened : Bool
  sentMessage : Option String
  result : Option (Except String ChatResult)

/-- The part of `chat` after the conversation identity is ensured: the guard
`if (!this.models[model]) throw ...` fires only when the property access
yields `undefined` (the three own mode strings are nonempty, and inherited
`Object.prototype` values are functions or objects, so all of those are
truthy); otherwise open the WebSocket, send the message and run the event
loop from the fresh `{ text: '', citations: [] }` accumulator. -/
def chatWithConversation (c : Copilot) (message model : String) (backend : Backend)
    (created : Bool) : ChatCall :=
  match modelsAccess model with
  | ModelAccess.undef =>
      { state := c, createAttempted := created, wsOpened := false,
        sentMessage := none, result := some (Except.error availableModelsMessage) }
  | ModelAccess.own _mode =>
      { state := c, createAttempted := created, wsOpened := true,
        sentMessage := some message,
        result := processEvents initResponse backend.events }
  | ModelAccess.inherited =>
      { state := c, createAttempted := created, wsOpened := true,
        sentMessage := some message,
        result := processEvents initResponse backend.events }

/-- `Copilot.chat(message, { model })`: first
`if (!this.conversationId) await this.createConversation()` (a thrown
creation error rejects the whole call before the model check), then the model
validation and the WebSocket exchange. -/
def Copilot.chat (c : Copilot) (message model : String) (backend : Backend) : ChatCall :=
  match c.conversationId with
  | none =>
    match Copilot.createConversation c backend.create with
    | (c2, Except.error e) =>
        { state := c2, createAttempted := true, wsOpened := false,
          sentMessage := none, result := some (Except.error e) }
    | (c2, Except.ok _) => chatWithConversation c2 message model backend true
  | some _ => chatWithConversation c message model backend false

/-- A JSON value as far as the handler inspects the `query` field:
enough structure to decide JavaScript truthiness and `typeof v === 'string'`. -/
inductive JsonVal where
  | str (s : String)
  | num (n : Int)
  | obj
  | arr
  | boolean (b : Bool)
  | null
deriving Repr, DecidableEq

/-- JavaScript truthiness of a JSON value: empty string, zero, `false` and
`null` are falsy; objects and arrays (even empty) are truthy. -/
def JsonVal.truthy : JsonVal → Bool
  | JsonVal.str s => s ≠ ""
  | JsonVal.num n => n ≠ 0
  | JsonVal.obj => true
  | JsonVal.arr => true
  | JsonVal.boolean b => b
  | JsonVal.null => false

/-- `typeof v === 'string'`. -/
def JsonVal.isStr : JsonVal → Bool
  | JsonVal.str _ => true
  | _ => false

/-- The validation guard
`!query || typeof query !== 'string' || query.trim() === ''`
(`none` models an absent field, i.e. `undefined`). -/
def queryInvalid : Option JsonVal → Bool
  | none => true
  | some v =>
    if !v.truthy then true
    else match v with
      | JsonVal.str s => jsTrim s = ""
      | _ => true

/-- The string content of a validated query field. -/
def queryString : Option JsonVal → String
  | some (JsonVal.str s) => s
  | _ => ""

/-- The request body of POST /api/ai:
`{ query, customModel, language }`, each possibly absent. The handler only
ever treats `customModel` and `language` as strings, so they are modelled as
optional strings; `query` keeps full JSON structure because the guard
inspects its type. -/
structure ApiRequest where
  query : Option JsonVal
  customModel : Option String
  language : Option String
deriving Repr, DecidableEq

/-- `customModel && customModel.trim() !== ''`: the persona instruction is
included only for a present, non-empty, non-blank persona label. -/
def personaActive : Option String → Bool
  | none => false
  | some s => s ≠ "" && jsTrim s ≠ ""

/-- Prompt construction of the handler: optional persona instruction, then
the language instruction (default language Indonesia), joined with a single
space and followed by the fixed delimiter and the raw query. -/
def buildPrompt (query : String) (customModel language : Option String) : String :=
  let instructions : List String :=
    if personaActive customModel then
      ["Anda adalah AI yang harus berperan sebagai: \"" ++ customModel.getD "" ++
        "\". Pertahankan karakter ini dalam jawaban Anda."]
    else []
  let outputLanguage := jsStringOr language "Indonesia"
  let instructions := instructions ++
    ["Anda harus menjawab secara eksklusif dalam Bahasa " ++ outputLanguage ++ "."]
  String.intercalate " " instructions ++ "\n\n---\n\nPERTANYAAN:\n" ++ query

/-- The metadata record assembled on success (executionTime and timestamp,
which read the real clock, are outside the embedding). -/
structure Metadata where
  queryLength : Nat
  finalPromptLength : Nat
  responseLength : Nat
  citationCount : Nat
  modelUsed : String
  customCharacter : String
  outputLanguage : String
deriving Repr, DecidableEq

/-- The three HTTP response shapes of the handler: 400 validation failure,
200 success, 500 server error. -/
inductive ApiResponse where
  | badRequest (error : String)
  | ok (response : String) (citations : List Citation) (metadata : Metadata)
  | serverError (error : String) (message : String)
deriving Repr, DecidableEq

/-- HTTP status code of a response. -/
def ApiResponse.statusCode : ApiResponse → Nat
  | ApiResponse.badRequest _ => 400
  | ApiResponse.ok _ _ _ => 200
  | ApiResponse.serverError _ _ => 500

/-- The `success` field of the response body. -/
def ApiResponse.success : ApiResponse → Bool
  | ApiResponse.ok _ _ _ => true
  | _ => false

/-- The `response` field of a 200 body. -/
def ApiResponse.responseText : ApiResponse → Option String
  | ApiResponse.ok r _ _ => some r
  | _ => none

/-- The `citations` field of a 200 body. -/
def ApiResponse.citationList : ApiResponse → Option (List Citation)
  | ApiResponse.ok _ cs _ => some cs
  | _ => none

/-- The `message` field of a 500 body. -/
def ApiResponse.errorMessage : ApiResponse → Option String
  | ApiResponse.serverError _ m => some m
  | _ => none

/-- Everything observable about one POST /api/ai invocation: the HTTP
response (`none` when the chat promise never settles, so the handler stays
suspended), the updated shared `Copilot` state, and whether the backend was
contacted at all. -/
structure HandlerOutcome where
  response : Option ApiResponse
  state : Copilot
  chatCalled : Bool
  createAttempted : Bool
  wsOpened : Bool
  sentMessage : Option String

/-- The POST /api/ai handler: validate the query (early 400 return before
any backend contact), build the final prompt, call `chat` on the shared
`Copilot` instance with the default model, and map resolution to a 200 with
trimmed text and rejection to a 500 carrying the error message. -/
def handleApiAi (req : ApiRequest) (c : Copilot) (backend : Backend) : HandlerOutcome :=
  if queryInvalid req.query then
    { response := some (ApiResponse.badRequest
        "Bad Request: \x27query\x27 field is missing or empty."),
      state := c, chatCalled := false, createAttempted := false,
      wsOpened := false, sentMessage := none }
  else
    let query := queryString req.query
    let finalPrompt := buildPrompt query req.customModel req.language
    let call := Copilot.chat c finalPrompt "default" backend
    let response :=
      match call.result with
      | none => none
      | some (Except.ok r) =>
          let responseText := jsTrim r.text
          some (ApiResponse.ok responseText r.citations
            { queryLength := query.length,
              finalPromptLength := finalPrompt.length,
              responseLength := responseText.length,
              citationCount := r.citations.length,
              modelUsed := "default",
              customCharacter := jsStringOr req.customModel "Tidak diatur",
              outputLanguage := jsStringOr req.language "Indonesia" })
      | some (Except.error e) =>
          some (ApiResponse.serverError "Internal Server Error" e)
    { response := response, state := call.state, chatCalled := true,
      createAttempted := call.createAttempted, wsOpened := call.wsOpened,
      sentMessage := call.sentMessage }

/-- Specification-level accumulated text: the concatenation, in arrival
order, of the text fragments of the appendText frames in the list. -/
def textOf : List Frame → String
  | [] => ""
  | Frame.appendText t :: rest => jsStringOr t "" ++ textOf rest
  | _ :: rest => textOf rest

/-- Specification-level citation list: one record per citation frame, in
arrival order. -/
def citationsOf : List Frame → List Citation
  | [] => []
  | Frame.citation title icon url :: rest =>
      { title := title, icon := icon, url := url } :: citationsOf rest
  | _ :: rest => citationsOf rest

/-! ## Helper lemmas -/

/-- Non-terminal frames only accumulate: processing a prefix of non-terminal
frames carries the fold to the rest of the events with the text fragments
appended and the citation records appended, both in arrival order. -/
theorem processEvents_nonterminal_prefix (pre : List Frame) :
    ∀ (r : ChatResult) (rest : List WireEvent),
    (∀ f ∈ pre, f.isTerminal = false) →
    processEvents r (pre.map WireEvent.frame ++ rest) =
      processEvents
        { text := r.text ++ textOf pre, citations := r.citations ++ citationsOf pre }
        rest := by
  induction pre with
  | nil =>
    intro r rest _
    simp [textOf, citationsOf, String.append_empty]
  | cons f fs ih =>
    intro r rest hall
    have hf : f.isTerminal = false := hall f (List.mem_cons_self f fs)
    have hfs : ∀ g ∈ fs, g.isTerminal = false :=
      fun g hg => hall g (List.mem_cons_of_mem f hg)
    cases f with
    | appendText t =>
      simp only [List.map_cons, List.cons_append, processEvents, List.append_eq]
      rw [ih _ _ hfs]
      simp [textOf, citationsOf, String.append_assoc]
    | citation title icon url =>
      simp only [List.map_cons, List.cons_append, processEvents, List.append_eq]
      rw [ih _ _ hfs]
      simp [textOf, citationsOf]
    | done => simp [Frame.isTerminal] at hf
    | error m => simp [Frame.isTerminal] at hf
    | other =>
      simp only [List.map_cons, List.cons_append, processEvents, List.append_eq]
      rw [ih _ _ hfs]
      simp [textOf, citationsOf]
    | malformed => simp [Frame.isTerminal] at hf

/-- The fold over the events settles exactly when a terminal event occurs. -/
theorem processEvents_isSome_iff (events : List WireEvent) :
    ∀ r : ChatResult,
    (processEvents r events).isSome = true ↔ ∃ e ∈ events, e.isTerminal = true := by
  induction events with
  | nil => intro r; simp [processEvents]
  | cons e rest ih =>
    intro r
    cases e with
    | frame f =>
      cases f with
      | appendText t =>
        simp only [processEvents]
        rw [ih]
        simp [WireEvent.isTerminal, Frame.isTerminal]
      | citation title icon url =>
        simp only [processEvents]
        rw [ih]
        simp [WireEvent.isTerminal, Frame.isTerminal]
      | done => simp [processEvents, WireEvent.isTerminal, Frame.isTerminal]
      | error m => simp [processEvents, WireEvent.isTerminal, Frame.isTerminal]
      | other =>
        simp only [processEvents]
        rw [ih]
        simp [WireEvent.isTerminal, Frame.isTerminal]
      | malformed => simp [processEvents, WireEvent.isTerminal, Frame.isTerminal]
    | wsError m => simp [processEvents, WireEvent.isTerminal]

/-- Resolution with a result only ever happens through a `done` frame. -/
theorem processEvents_ok_done (events : List WireEvent) :
    ∀ (r res : ChatResult), processEvents r events = some (Except.ok res) →
    WireEvent.frame Frame.done ∈ events := by
  induction events with
  | nil => intro r res h; simp [processEvents] at h
  | cons e rest ih =>
    intro r res h
    cases e with
    | frame f =>
      cases f with
      | appendText t => exact List.mem_cons_of_mem _ (ih _ res h)
      | citation title icon url => exact List.mem_cons_of_mem _ (ih _ res h)
      | done => exact List.mem_cons_self _ _
      | error m => simp [processEvents] at h
      | other => exact List.mem_cons_of_mem _ (ih _ res h)
      | malformed => simp [processEvents] at h
    | wsError m => simp [processEvents] at h

/-! ## Claim theorems -/

/-- C1: on one chat exchange whose events are a run of non-terminal frames
followed by a `done` frame, the promise resolves with text equal to the
concatenation, in arrival order, of the `appendText` fragments received
before `done`, and with one citation record per `citation` frame in arrival
order. -/
theorem chat_result_is_ordered_accumulation (c : Copilot) (msg model : String)
    (backend : Backend) (pre : List Frame) (rest : List WireEvent) (cid mode : String)
    (hc : c.conversationId = some cid)
    (hm : modelsLookup model = some mode)
    (hev : backend.events = pre.map WireEvent.frame ++ WireEvent.frame Frame.done :: rest)
    (hpre : ∀ f ∈ pre, f.isTerminal = false) :
    (Copilot.chat c msg model backend).result =
      some (Except.ok { text := textOf pre, citations := citationsOf pre }) := by
  have ha : modelsAccess model = ModelAccess.own mode := by
    unfold modelsAccess
    rw [hm]
  unfold Copilot.chat
  rw [hc]
  unfold chatWithConversation
  rw [ha]
  simp only
  rw [hev, processEvents_nonterminal_prefix pre initResponse _ hpre]
  simp [processEvents, initResponse, String.empty_append]

/-- Witness for C1 at a concrete frame sequence. -/
theorem chat_result_is_ordered_accumulation_witness :
    (Copilot.chat { conversationId := some "cid" } "m" "default"
      { create := CreateResult.ok "x",
        events := [WireEvent.frame (Frame.appendText (some "Hel")),
                   WireEvent.frame (Frame.citation "t" "i" "u"),
                   WireEvent.frame (Frame.appendText (some "lo")),
                   WireEvent.frame Frame.done] }).result =
      some (Except.ok
        { text := "Hello",
          citations := [{ title := "t", icon := "i", url := "u" }] }) := by
  have h := chat_result_is_ordered_accumulation { conversationId := some "cid" } "m"
    "default"
    { create := CreateResult.ok "x",
      events := [WireEvent.frame (Frame.appendText (some "Hel")),
                 WireEvent.frame (Frame.citation "t" "i" "u"),
                 WireEvent.frame (Frame.appendText (some "lo")),
                 WireEvent.frame Frame.done] }
    [Frame.appendText (some "Hel"), Frame.citation "t" "i" "u",
     Frame.appendText (some "lo")]
    [] "cid" "chat" rfl rfl rfl (by decide)
  exact h.trans rfl

/-- C8: the promise of the streaming exchange settles exactly when a
terminal wire event (a `done`, `error` or malformed frame, or a transport
error) occurs, and it resolves with a ChatResult only through a `done`
frame, so no result is ever delivered before a terminal event. -/
theorem chat_settles_only_on_terminal (r : ChatResult) (events : List WireEvent) :
    ((processEvents r events).isSome = true ↔ ∃ e ∈ events, e.isTerminal = true) ∧
    (∀ res : ChatResult, processEvents r events = some (Except.ok res) →
      WireEvent.frame Frame.done ∈ events) :=
  ⟨processEvents_isSome_iff events r,
   fun res h => processEvents_ok_done events r res h⟩

/-- Witness for C8: at the singleton `done` event list, the exchange settles
and the `done` frame is in the list. -/
theorem chat_settles_only_on_terminal_witness :
    (processEvents initResponse [WireEvent.frame Frame.done]).isSome = true ∧
    WireEvent.frame Frame.done ∈ [WireEvent.frame Frame.done] := by
  refine ⟨?_, ?_⟩
  · exact (chat_settles_only_on_terminal initResponse
      [WireEvent.frame Frame.done]).1.mpr
      ⟨WireEvent.frame Frame.done, List.mem_singleton_self _, rfl⟩
  · exact (chat_settles_only_on_terminal initResponse
      [WireEvent.frame Frame.done]).2 initResponse rfl

/-- C2: the Halo scenario. With query "Halo", no persona and no language,
the message handed to the backend chat is exactly the language instruction,
the fixed delimiter and the query; when the backend streams
appendText "Hi", appendText " there", done, the HTTP response is a success
carrying response "Hi there" and no citations. -/
theorem halo_scenario :
    (handleApiAi
        { query := some (JsonVal.str "Halo"), customModel := none, language := none }
        { conversationId := none }
        { create := CreateResult.ok "c1",
          events := [WireEvent.frame (Frame.appendText (some "Hi")),
                     WireEvent.frame (Frame.appendText (some " there")),
                     WireEvent.frame Frame.done] }).sentMessage =
      some "Anda harus menjawab secara eksklusif dalam Bahasa Indonesia.\n\n---\n\nPERTANYAAN:\nHalo" ∧
    (handleApiAi
        { query := some (JsonVal.str "Halo"), customModel := none, language := none }
        { conversationId := none }
        { create := CreateResult.ok "c1",
          events := [WireEvent.frame (Frame.appendText (some "Hi")),
                     WireEvent.frame (Frame.appendText (some " there")),
                     WireEvent.frame Frame.done] }).response.map ApiResponse.success =
      some true ∧
    (handleApiAi
        { query := some (JsonVal.str "Halo"), customModel := none, language := none }
        { conversationId := none }
        { create := CreateResult.ok "c1",
          events := [WireEvent.frame (Frame.appendText (some "Hi")),
                     WireEvent.frame (Frame.appendText (some " there")),
                     WireEvent.frame Frame.done] }).response.bind ApiResponse.responseText =
      some "Hi there" ∧
    (handleApiAi
        { query := some (JsonVal.str "Halo"), customModel := none, language := none }
        { conversationId := none }
        { create := CreateResult.ok "c1",
          events := [WireEvent.frame (Frame.appendText (some "Hi")),
                     WireEvent.frame (Frame.appendText (some " there")),
                     WireEvent.frame Frame.done] }).response.bind ApiResponse.citationList =
      some [] := by
  exact ⟨rfl, rfl, rfl, rfl⟩

/-- With a valid model selector and a usable conversation (cached identity
or successful creation), the chat promise is exactly the event fold started
from the fresh accumulator. -/
theorem chat_valid_model_result (c : Copilot) (msg model mode : String)
    (backend : Backend) (hm : modelsLookup model = some mode)
    (hready : (∃ cid, c.conversationId = some cid) ∨
      ∃ id, backend.create = CreateResult.ok id) :
    (Copilot.chat c msg model backend).result =
      processEvents initResponse backend.events := by
  have ha : modelsAccess model = ModelAccess.own mode := by
    unfold modelsAccess
    rw [hm]
  cases hcid : c.conversationId with
  | none =>
    rcases hready with ⟨cid, hcid2⟩ | ⟨id, hcr⟩
    · rw [hcid] at hcid2; exact absurd hcid2 (Option.noConfusion)
    · unfold Copilot.chat
      rw [hcid]
      simp [Copilot.createConversation, hcr, chatWithConversation, ha]
  | some cid =>
    unfold Copilot.chat
    rw [hcid]
    unfold chatWithConversation
    rw [ha]

/-- A rejected chat promise surfaces as a 500 whose message field carries
the rejection message verbatim. -/
theorem handler_maps_rejection (req : ApiRequest) (c : Copilot) (backend : Backend)
    (e : String) (hq : queryInvalid req.query = false)
    (hready : (∃ cid, c.conversationId = some cid) ∨
      ∃ id, backend.create = CreateResult.ok id)
    (h : processEvents initResponse backend.events = some (Except.error e)) :
    (handleApiAi req c backend).response =
      some (ApiResponse.serverError "Internal Server Error" e) := by
  have hr := chat_valid_model_result c
    (buildPrompt (queryString req.query) req.customModel req.language)
    "default" "chat" backend rfl hready
  have hq2 : ¬ (queryInvalid req.query = true) := by
    rw [hq]; exact Bool.false_ne_true
  unfold handleApiAi
  rw [if_neg hq2]
  simp only [hr, h]

/-- A resolved chat promise surfaces as a 200 whose response field is the
trimmed accumulated text and whose citations field is the accumulated list. -/
theorem handler_maps_resolution (req : ApiRequest) (c : Copilot) (backend : Backend)
    (r : ChatResult) (hq : queryInvalid req.query = false)
    (hready : (∃ cid, c.conversationId = some cid) ∨
      ∃ id, backend.create = CreateResult.ok id)
    (h : processEvents initResponse backend.events = some (Except.ok r)) :
    (handleApiAi req c backend).response.bind ApiResponse.responseText =
      some (jsTrim r.text) ∧
    (handleApiAi req c backend).response.bind ApiResponse.citationList =
      some r.citations := by
  have hr := chat_valid_model_result c
    (buildPrompt (queryString req.query) req.customModel req.language)
    "default" "chat" backend rfl hready
  have hq2 : ¬ (queryInvalid req.query = true) := by
    rw [hq]; exact Bool.false_ne_true
  unfold handleApiAi
  rw [if_neg hq2]
  simp only [hr, h]
  exact ⟨rfl, rfl⟩

/-- C3: a missing query, or a query that is blank after trimming, is
answered with the fixed 400 body (success false) and neither conversation
creation nor the streaming exchange is attempted. -/
theorem blank_query_rejected_no_backend_call (req : ApiRequest) (c : Copilot)
    (backend : Backend)
    (h : req.query = none ∨
      ∃ s, req.query = some (JsonVal.str s) ∧ jsTrim s = "") :
    (handleApiAi req c backend).response =
      some (ApiResponse.badRequest
        "Bad Request: \x27query\x27 field is missing or empty.") ∧
    (handleApiAi req c backend).response.map ApiResponse.statusCode = some 400 ∧
    (handleApiAi req c backend).response.map ApiResponse.success = some false ∧
    (handleApiAi req c backend).chatCalled = false ∧
    (handleApiAi req c backend).createAttempted = false ∧
    (handleApiAi req c backend).wsOpened = false := by
  have hq : queryInvalid req.query = true := by
    rcases h with h | ⟨s, hs, ht⟩
    · rw [h]; rfl
    · rw [hs]
      by_cases hse : s = ""
      · subst hse; rfl
      · simp [queryInvalid, JsonVal.truthy, hse, ht]
  unfold handleApiAi
  rw [if_pos hq]
  exact ⟨rfl, rfl, rfl, rfl, rfl, rfl⟩

/-- Witness for C3 at the absent-query request. -/
theorem blank_query_rejected_no_backend_call_witness :
    (handleApiAi { query := none, customModel := none, language := none }
        { conversationId := none }
        { create := CreateResult.ok "c1", events := [] }).response =
      some (ApiResponse.badRequest
        "Bad Request: \x27query\x27 field is missing or empty.") ∧
    (handleApiAi { query := none, customModel := none, language := none }
        { conversationId := none }
        { create := CreateResult.ok "c1", events := [] }).createAttempted = false :=
  ⟨(blank_query_rejected_no_backend_call
      { query := none, customModel := none, language := none }
      { conversationId := none }
      { create := CreateResult.ok "c1", events := [] } (Or.inl rfl)).1,
   (blank_query_rejected_no_backend_call
      { query := none, customModel := none, language := none }
      { conversationId := none }
      { create := CreateResult.ok "c1", events := [] } (Or.inl rfl)).2.2.2.2.1⟩

/-- C4 counterexample: the claim fails on the code in two ways. The
selector "constructor" is not in the fixed model mapping, yet the property
access `this.models['constructor']` reaches the truthy value inherited from
`Object.prototype`, so the `!this.models[model]` guard does not fire and a
WebSocket connection IS opened. Separately, with the unknown selector
"bogus", no cached identity and a failing conversation creation, chat
rejects with the creation-failure message, which does not list the valid
model names, because the source awaits `createConversation` before the
model check. -/
theorem invalid_model_claim_counterexample :
    modelsLookup "constructor" = none ∧
    modelsAccess "constructor" = ModelAccess.inherited ∧
    (Copilot.chat { conversationId := some "cid" } "hi" "constructor"
        { create := CreateResult.ok "x", events := [] }).wsOpened = true ∧
    modelsLookup "bogus" = none ∧
    (Copilot.chat { conversationId := none } "hi" "bogus"
        { create := CreateResult.fail, events := [] }).result =
      some (Except.error "Failed to create a new conversation with the AI service.") ∧
    "Failed to create a new conversation with the AI service." ≠
      availableModelsMessage := by
  refine ⟨rfl, rfl, rfl, rfl, rfl, ?_⟩
  decide

/-- C4 (amended): for every chat call whose model selector resolves to
`undefined` through the property access (it is neither one of the three
mapped keys nor a key inherited from `Object.prototype`), no WebSocket
connection is opened and no message frame is sent; and whenever the call
gets past conversation establishment (an identity is already cached, or
creation succeeds), it fails with the error listing the valid model
names. -/
theorem invalid_model_no_connection (c : Copilot) (msg model : String)
    (backend : Backend) (hm : modelsAccess model = ModelAccess.undef) :
    (Copilot.chat c msg model backend).wsOpened = false ∧
    (Copilot.chat c msg model backend).sentMessage = none ∧
    availableModelsMessage = "Available models: default, think-deeper, gpt-5" ∧
    ((∃ cid, c.conversationId = some cid) ∨
        (∃ id, backend.create = CreateResult.ok id) →
      (Copilot.chat c msg model backend).result =
        some (Except.error availableModelsMessage)) := by
  have hmsg : availableModelsMessage =
      "Available models: default, think-deeper, gpt-5" := by decide
  cases hcid : c.conversationId with
  | none =>
    cases hcr : backend.create with
    | ok id =>
      have hstep : Copilot.chat c msg model backend =
          { state := { c with conversationId := some id }, createAttempted := true,
            wsOpened := false, sentMessage := none,
            result := some (Except.error availableModelsMessage) } := by
        unfold Copilot.chat
        rw [hcid]
        simp [Copilot.createConversation, hcr, chatWithConversation, hm]
      rw [hstep]
      exact ⟨rfl, rfl, hmsg, fun _ => rfl⟩
    | fail =>
      have hstep : Copilot.chat c msg model backend =
          { state := c, createAttempted := true, wsOpened := false,
            sentMessage := none,
            result := some (Except.error
              "Failed to create a new conversation with the AI service.") } := by
        unfold Copilot.chat
        rw [hcid]
        simp [Copilot.createConversation, hcr]
      rw [hstep]
      refine ⟨rfl, rfl, hmsg, ?_⟩
      intro hready
      rcases hready with ⟨cid, h2⟩ | ⟨id, h2⟩
      · exact absurd h2 Option.noConfusion
      · exact absurd h2 CreateResult.noConfusion
  | some cid =>
    unfold Copilot.chat
    rw [hcid]
    unfold chatWithConversation
    rw [hm]
    exact ⟨rfl, rfl, hmsg, fun _ => rfl⟩

/-- Witness for the amended C4 at a cached identity and the selector
"gpt-4". -/
theorem invalid_model_no_connection_witness :
    (Copilot.chat { conversationId := some "cid" } "hi" "gpt-4"
        { create := CreateResult.ok "x", events := [] }).wsOpened = false ∧
    (Copilot.chat { conversationId := some "cid" } "hi" "gpt-4"
        { create := CreateResult.ok "x", events := [] }).result =
      some (Except.error availableModelsMessage) := by
  have h := invalid_model_no_connection { conversationId := some "cid" } "hi" "gpt-4"
    { create := CreateResult.ok "x", events := [] } rfl
  exact ⟨h.1, h.2.2.2 (Or.inl ⟨"cid", rfl⟩)⟩

/-- C5: a backend `error` frame terminates the exchange: the promise rejects
with the backend-supplied message (or the fixed generic message when the
frame carries none), and the handler then answers 500 with that same message
verbatim in the `message` field. -/
theorem error_frame_message_verbatim (req : ApiRequest) (c : Copilot)
    (backend : Backend) (pre : List Frame) (rest : List WireEvent)
    (m : Option String) (hq : queryInvalid req.query = false)
    (hready : (∃ cid, c.conversationId = some cid) ∨
      ∃ id, backend.create = CreateResult.ok id)
    (hev : backend.events =
      pre.map WireEvent.frame ++ WireEvent.frame (Frame.error m) :: rest)
    (hpre : ∀ f ∈ pre, f.isTerminal = false) :
    processEvents initResponse backend.events =
      some (Except.error
        (jsStringOr m "An unknown error occurred during the AI chat.")) ∧
    (handleApiAi req c backend).response =
      some (ApiResponse.serverError "Internal Server Error"
        (jsStringOr m "An unknown error occurred during the AI chat.")) ∧
    (∀ s, m = some s → s ≠ "" →
      jsStringOr m "An unknown error occurred during the AI chat." = s) ∧
    (m = none →
      jsStringOr m "An unknown error occurred during the AI chat." =
        "An unknown error occurred during the AI chat.") := by
  have herr : processEvents initResponse backend.events =
      some (Except.error
        (jsStringOr m "An unknown error occurred during the AI chat.")) := by
    rw [hev, processEvents_nonterminal_prefix pre initResponse _ hpre]
    rfl
  refine ⟨herr, handler_maps_rejection req c backend _ hq hready herr, ?_, ?_⟩
  · intro s hs hne
    rw [hs]
    simp [jsStringOr, hne]
  · intro hnone
    rw [hnone]
    rfl

/-- Witness for C5 at a concrete error frame with a nonempty message. -/
theorem error_frame_message_verbatim_witness :
    (handleApiAi { query := some (JsonVal.str "q"), customModel := none, language := none }
        { conversationId := some "cid" }
        { create := CreateResult.ok "x",
          events := [WireEvent.frame (Frame.appendText (some "oops")),
                     WireEvent.frame (Frame.error (some "backend broke"))] }).response =
      some (ApiResponse.serverError "Internal Server Error" "backend broke") := by
  have h := error_frame_message_verbatim
    { query := some (JsonVal.str "q"), customModel := none, language := none }
    { conversationId := some "cid" }
    { create := CreateResult.ok "x",
      events := [WireEvent.frame (Frame.appendText (some "oops")),
                 WireEvent.frame (Frame.error (some "backend broke"))] }
    [Frame.appendText (some "oops")] [] (some "backend broke")
    rfl (Or.inl ⟨"cid", rfl⟩) rfl (by decide)
  exact h.2.1.trans rfl

/-- C6: when conversation creation fails, `createConversation` throws the
fixed unavailability message and leaves the cached identity exactly as it
was; a chat call entered with no cached identity therefore rejects with that
message, its state still has no identity, and a later chat call on that
state attempts creation again. -/
theorem create_failure_leaves_identity_unchanged (c : Copilot) (msg model : String)
    (backend : Backend) (hid : c.conversationId = none)
    (hfail : backend.create = CreateResult.fail) :
    Copilot.createConversation c CreateResult.fail =
      (c, Except.error "Failed to create a new conversation with the AI service.") ∧
    (Copilot.chat c msg model backend).result =
      some (Except.error "Failed to create a new conversation with the AI service.") ∧
    (Copilot.chat c msg model backend).state = c ∧
    (Copilot.chat c msg model backend).createAttempted = true ∧
    (Copilot.chat (Copilot.chat c msg model backend).state msg model
        backend).createAttempted = true := by
  have hstep : Copilot.chat c msg model backend =
      { state := c, createAttempted := true, wsOpened := false,
        sentMessage := none,
        result := some (Except.error
          "Failed to create a new conversation with the AI service.") } := by
    unfold Copilot.chat
    rw [hid]
    simp [Copilot.createConversation, hfail]
  refine ⟨rfl, ?_, ?_, ?_, ?_⟩
  · rw [hstep]
  · rw [hstep]
  · rw [hstep]
  · rw [hstep]
    simp only
    rw [hstep]

/-- Witness for C6 at the fresh instance. -/
theorem create_failure_leaves_identity_unchanged_witness :
    (Copilot.chat { conversationId := none } "m" "default"
        { create := CreateResult.fail, events := [] }).result =
      some (Except.error "Failed to create a new conversation with the AI service.") ∧
    (Copilot.chat { conversationId := none } "m" "default"
        { create := CreateResult.fail, events := [] }).state =
      { conversationId := none } := by
  have h := create_failure_leaves_identity_unchanged { conversationId := none }
    "m" "default" { create := CreateResult.fail, events := [] } rfl rfl
  exact ⟨h.2.1, h.2.2.1⟩

/-- C7: a `done` frame with no prior appendText and no prior citation frame
resolves the exchange with text equal to the empty string (not an absent
value) and an empty citation list, and the HTTP response then carries an
empty response string and an empty citations array. -/
theorem done_first_yields_empty_result (req : ApiRequest) (c : Copilot)
    (backend : Backend) (rest : List WireEvent)
    (hq : queryInvalid req.query = false)
    (hready : (∃ cid, c.conversationId = some cid) ∨
      ∃ id, backend.create = CreateResult.ok id)
    (hev : backend.events = WireEvent.frame Frame.done :: rest) :
    processEvents initResponse backend.events =
      some (Except.ok { text := "", citations := [] }) ∧
    (handleApiAi req c backend).response.bind ApiResponse.responseText = some "" ∧
    (handleApiAi req c backend).response.bind ApiResponse.citationList = some [] := by
  have hok : processEvents initResponse backend.events =
      some (Except.ok { text := "", citations := [] }) := by
    rw [hev]
    rfl
  have h := handler_maps_resolution req c backend { text := "", citations := [] }
    hq hready hok
  exact ⟨hok, h.1, h.2⟩

/-- Witness for C7 at a singleton `done` event list. -/
theorem done_first_yields_empty_result_witness :
    (handleApiAi
        { query := some (JsonVal.str "q"), customModel := none, language := none }
        { conversationId := some "cid" }
        { create := CreateResult.ok "x",
          events := [WireEvent.frame Frame.done] }).response.bind
      ApiResponse.responseText = some "" ∧
    (handleApiAi
        { query := some (JsonVal.str "q"), customModel := none, language := none }
        { conversationId := some "cid" }
        { create := CreateResult.ok "x",
          events := [WireEvent.frame Frame.done] }).response.bind
      ApiResponse.citationList = some [] := by
  have h := done_first_yields_empty_result
    { query := some (JsonVal.str "q"), customModel := none, language := none }
    { conversationId := some "cid" }
    { create := CreateResult.ok "x", events := [WireEvent.frame Frame.done] }
    [] rfl (Or.inl ⟨"cid", rfl⟩) rfl
  exact ⟨h.2.1, h.2.2⟩

/-- C9: a query field that is present but not a string (a number, object,
array, boolean or null) is rejected with the same 400 body as a missing
query, and no backend call is made. -/
theorem nonstring_query_rejected (req : ApiRequest) (c : Copilot)
    (backend : Backend) (v : JsonVal) (hv : req.query = some v)
    (hs : v.isStr = false) :
    (handleApiAi req c backend).response =
      some (ApiResponse.badRequest
        "Bad Request: \x27query\x27 field is missing or empty.") ∧
    (handleApiAi req c backend).response.map ApiResponse.statusCode = some 400 ∧
    (handleApiAi req c backend).response.map ApiResponse.success = some false ∧
    (handleApiAi req c backend).chatCalled = false ∧
    (handleApiAi req c backend).createAttempted = false ∧
    (handleApiAi req c backend).wsOpened = false := by
  have hq : queryInvalid req.query = true := by
    rw [hv]
    cases v with
    | str s => simp [JsonVal.isStr] at hs
    | num n => simp [queryInvalid, JsonVal.truthy]
    | obj => rfl
    | arr => rfl
    | boolean b => cases b <;> rfl
    | null => rfl
  unfold handleApiAi
  rw [if_pos hq]
  exact ⟨rfl, rfl, rfl, rfl, rfl, rfl⟩

/-- Witness for C9 at the numeric query 5. -/
theorem nonstring_query_rejected_witness :
    (handleApiAi { query := some (JsonVal.num 5), customModel := none, language := none }
        { conversationId := none }
        { create := CreateResult.ok "c1", events := [] }).response =
      some (ApiResponse.badRequest
        "Bad Request: \x27query\x27 field is missing or empty.") ∧
    (handleApiAi { query := some (JsonVal.num 5), customModel := none, language := none }
        { conversationId := none }
        { create := CreateResult.ok "c1", events := [] }).createAttempted = false := by
  have h := nonstring_query_rejected
    { query := some (JsonVal.num 5), customModel := none, language := none }
    { conversationId := none }
    { create := CreateResult.ok "c1", events := [] }
    (JsonVal.num 5) rfl rfl
  exact ⟨h.1, h.2.2.2.2.1⟩

/-- C10: a persona label that is present but blank after trimming is treated
exactly as an absent one: no persona instruction is prepended, and the
prompt is the language instruction followed by the fixed delimiter and the
query. -/
theorem blank_persona_treated_as_absent (q cm : String) (lang : Option String)
    (h : jsTrim cm = "") :
    buildPrompt q (some cm) lang = buildPrompt q none lang ∧
    buildPrompt q none lang =
      "Anda harus menjawab secara eksklusif dalam Bahasa " ++
        jsStringOr lang "Indonesia" ++ "." ++ "\n\n---\n\nPERTANYAAN:\n" ++ q := by
  have hp : personaActive (some cm) = false := by
    simp [personaActive, h]
  constructor
  · unfold buildPrompt
    rw [hp]
    rfl
  · rfl

/-- Witness for C10 at the one-space persona label. -/
theorem blank_persona_treated_as_absent_witness :
    buildPrompt "Hi" (some " ") none = buildPrompt "Hi" none none :=
  (blank_persona_treated_as_absent "Hi" " " none (by decide)).1
